import Mathlib

/-
Verification of the pending-expense store and its HTTP routers
(src/app/services/pending_store.py, src/app/routers/expenses.py,
src/app/routers/accrued.py) against the natural-language specification.

The Python code works on dynamically typed dict-shaped records; we embed
those values shallowly as the inductive type `PyVal`.  Python floats are
modelled as exact rationals: no property in scope depends on binary
floating-point rounding.  Records (Python dicts with string keys) are
association lists preserving insertion order, which matches dict key
ordering in the source.  Exceptions are modelled with `Except`; an
operation that raises returns the store unchanged, mirroring the fact
that every raising path in the embedded code raises before mutating.

Two collaborator modules of the repository are imported by the routers
but are not part of the source tree we were given
(app/core/auth.py and app/services/coa_store.py); the values they
produce (the caller identity and the resolved accrued account) are
modelled from the spec as parameters, see `CurrentUser` and the `coa`
argument of `create_expense`.
-/

namespace AssetService

/-- A dynamically typed Python value as used by the store: None, str,
numbers (int and float collapsed into one exact-rational constructor),
bool, list, and dict with string keys. -/
inductive PyVal where
  | none : PyVal
  | str (s : String) : PyVal
  | num (q : ℚ) : PyVal
  | bool (b : Bool) : PyVal
  | list (xs : List PyVal) : PyVal
  | dict (kvs : List (String × PyVal)) : PyVal
deriving Repr

/-- A record, i.e. a Python dict with string keys, as an insertion-ordered
association list. -/
abbrev Rec := List (String × PyVal)

/-- The in-memory data of the store: `PendingStore._data`, a dict from
expense id to record. -/
abbrev Store := List (String × Rec)

/-- Python `d.get(k)` on an association list, returning the first binding. -/
def dget : Rec → String → Option PyVal
  | [], _ => Option.none
  | (k1, v) :: t, k => if k1 = k then some v else dget t k

/-- Python `d[k] = v`: replace the first binding of `k` in place, or append. -/
def dset : Rec → String → PyVal → Rec
  | [], k, v => [(k, v)]
  | (k1, v1) :: t, k, v => if k1 = k then (k, v) :: t else (k1, v1) :: dset t k v

/-- Python `d.get(k)` where an absent key yields `None`. -/
def pyGet (r : Rec) (k : String) : PyVal := (dget r k).getD PyVal.none

/-- Python `d.get(k, default)`. -/
def pyGetD (r : Rec) (k : String) (dflt : PyVal) : PyVal := (dget r k).getD dflt

/-- Store lookup `self._data.get(key)`. -/
def storeGet : Store → String → Option Rec
  | [], _ => Option.none
  | (k1, r) :: t, k => if k1 = k then some r else storeGet t k

/-- Store write `self._data[key] = rec`. -/
def storeSet : Store → String → Rec → Store
  | [], k, r => [(k, r)]
  | (k1, r1) :: t, k, r => if k1 = k then (k, r) :: t else (k1, r1) :: storeSet t k r

/-- Python truthiness of the embedded values. -/
def truthy : PyVal → Bool
  | PyVal.none => false
  | PyVal.str s => !s.isEmpty
  | PyVal.num q => decide (q ≠ 0)
  | PyVal.bool b => b
  | PyVal.list xs => !xs.isEmpty
  | PyVal.dict kvs => !kvs.isEmpty

/-- Python `a or b` on values (returns `a` when truthy, else `b`). -/
def pyOr (a b : PyVal) : PyVal := if truthy a then a else b

/-- Python `v == "lit"` for a dynamic value against a string literal. -/
def isStr (v : PyVal) (s : String) : Bool :=
  match v with
  | PyVal.str t => t = s
  | _ => false

/-- Python `v in xs` where `xs` is a list of strings (a non-string value
never equals a string, so only the `str` case can be a member). -/
def memStrList (v : PyVal) (xs : List String) : Bool :=
  match v with
  | PyVal.str t => xs.contains t
  | _ => false

/-- Python `str(x)`.  In every embedded call site the argument is already a
string (an expense id or a freshly generated id), so only the `str` case is
exercised; the other cases use a simple printable form. -/
def pyStrFn : PyVal → String
  | PyVal.none => "None"
  | PyVal.str s => s
  | PyVal.num q => toString q
  | PyVal.bool b => if b then "True" else "False"
  | PyVal.list _ => "<list>"
  | PyVal.dict _ => "<dict>"

/-- An `Option String` router argument as a Python value. -/
def optStr : Option String → PyVal
  | Option.none => PyVal.none
  | some s => PyVal.str s

/-- An `Option` rational as a Python value (None or float). -/
def optNum : Option ℚ → PyVal
  | Option.none => PyVal.none
  | some q => PyVal.num q

/-- The exceptions and HTTP failures the embedded code can produce. -/
inductive PyErr where
  | compileError (msg : String) : PyErr
  | nameError (name : String) : PyErr
  | attributeError (name : String) : PyErr
  | httpError (status : Nat) (detail : String) : PyErr
deriving Repr, DecidableEq

/-- ASCII case mapping for `str.lower`; every string the embedded code
lowers is ASCII ("ordinary", "accrued", "pending", account names). -/
def asciiLowerChar (c : Char) : Char :=
  if 'A' ≤ c && c ≤ 'Z' then Char.ofNat (c.toNat + 32) else c

/-- Python `s.lower()` (ASCII suffices for the embedded call sites). -/
def pyLower (s : String) : String := String.mk (s.data.map asciiLowerChar)

/-- Python's notion of whitespace for `str.strip()`. -/
def isPySpace (c : Char) : Bool :=
  c = ' ' || c = '\t' || c = '\n' || c = '\r' || c = '\x0b' || c = '\x0c'

/-- Python `s.strip()`: drop whitespace from both ends. -/
def pyStrip (s : String) : String :=
  String.mk (((s.data.dropWhile isPySpace).reverse.dropWhile isPySpace).reverse)

/-- Attribute access such as `.lower()` on a dynamic value: succeeds only on
strings, otherwise Python raises AttributeError naming the attribute. -/
def asStrAttr (v : PyVal) (attr : String) : Except PyErr String :=
  match v with
  | PyVal.str s => Except.ok s
  | _ => Except.error (PyErr.attributeError attr)

/-- src/app/services/pending_store.py:21-27, `_safe_float`: `None` stays
`None`; any value `float` rejects comes back as `None` because every
exception is swallowed.  Numbers map to themselves and bools to 0/1
(Python `float(bool)`).  Coercion of numeric strings is not modelled: no
embedded call site passes a string here (amounts arrive as floats from the
typed request models, and the store itself writes numbers). -/
def _safe_float : PyVal → Option ℚ
  | PyVal.num q => some q
  | PyVal.bool b => some (if b then 1 else 0)
  | _ => Option.none

/-- Python `v is None` on an embedded value. -/
def isNone : PyVal → Bool
  | PyVal.none => true
  | _ => false

mutual

/-- src/app/services/pending_store.py:49-66, `_json_sanitize`: the embedded
value type has no coroutines or foreign objects, so sanitizing recurses
through lists and dicts (`str(k)` is the identity on keys that are already
strings) and leaves scalars alone. -/
def _json_sanitize : PyVal → PyVal
  | PyVal.none => PyVal.none
  | PyVal.str s => PyVal.str s
  | PyVal.num q => PyVal.num q
  | PyVal.bool b => PyVal.bool b
  | PyVal.list xs => PyVal.list (sanitizeList xs)
  | PyVal.dict kvs => PyVal.dict (sanitizeKVs kvs)

/-- `_json_sanitize` mapped over the elements of a Python list. -/
def sanitizeList : List PyVal → List PyVal
  | [] => []
  | x :: t => _json_sanitize x :: sanitizeList t

/-- `_json_sanitize` mapped over the values of a Python dict. -/
def sanitizeKVs : List (String × PyVal) → List (String × PyVal)
  | [] => []
  | (k, v) :: t => (k, _json_sanitize v) :: sanitizeKVs t

end

/-- `_json_sanitize` applied to a dict of fields, as `update_fields` does. -/
def sanitize_fields (fields : Rec) : Rec :=
  sanitizeKVs fields

/-- Python `rec.update(d)`: assign each binding of `d` into `rec` in order. -/
def dict_update (r : Rec) (d : Rec) : Rec :=
  d.foldl (fun acc kv => dset acc kv.1 kv.2) r

/-- A calendar date as used by `datetime.date`. -/
structure PyDate where
  year : Nat
  month : Nat
  day : Nat
deriving Repr, DecidableEq

/-- Zero-padding for `date.isoformat`. -/
def pad2 (n : Nat) : String := if n < 10 then "0" ++ toString n else toString n

/-- Zero-padding of the year for `date.isoformat`. -/
def pad4 (n : Nat) : String :=
  if n < 10 then "000" ++ toString n
  else if n < 100 then "00" ++ toString n
  else if n < 1000 then "0" ++ toString n
  else toString n

/-- `date.isoformat`: YYYY-MM-DD. -/
def PyDate.isoformat (d : PyDate) : String :=
  pad4 d.year ++ "-" ++ pad2 d.month ++ "-" ++ pad2 d.day

/-- src/app/services/pending_store.py:39-46, `_month_bounds`: the first day
of `today`'s month and the first day of the next month, as ISO strings. -/
def _month_bounds (today : PyDate) : String × String :=
  let start : PyDate := { year := today.year, month := today.month, day := 1 }
  let nxt : PyDate :=
    if start.month = 12 then { year := start.year + 1, month := 1, day := 1 }
    else { year := start.year, month := start.month + 1, day := 1 }
  (start.isoformat, nxt.isoformat)

/-- The state of the backing file as `_load` observes it: the path is
missing (or empty), or a file is present whose contents either parse as a
store (`some data`) or are unreadable / malformed JSON (`Option.none`). -/
inductive FileState where
  | missing : FileState
  | present (parsed : Option Store) : FileState

/-- src/app/services/pending_store.py:83-98, `_load` (first call, with
`_loaded` still false).  `_loaded` is set to true first.  A missing path
stores `{}` and returns.  Otherwise the parsed contents (or `{}` when
reading or parsing raised) are stored, and then `self._ensure_clearing_ids()`
is called - a method that is defined nowhere in the class, so this first
load of an existing file raises `AttributeError` after the data is already
in memory.  The result pairs the outcome of that first loading call with
the in-memory `_data` it leaves behind; because `_loaded` is already true,
later operations use that data without reloading. -/
def _load : FileState → Except PyErr Unit × Store
  | FileState.missing => (Except.ok (), [])
  | FileState.present parsed =>
      (Except.error (PyErr.attributeError "_ensure_clearing_ids"), parsed.getD [])

/-- src/app/services/pending_store.py:141-207, `add_pending`.  `now` is
`int(time.time())` and `freshId` is the id `_next_id` would mint; both are
parameters so the definition stays pure.  Note that the `normalized` dict
is built from a fixed list of keys: any other key of the incoming record
(in particular `created_by`, which the create router supplies) is dropped,
surviving only inside the raw `payload` copy.  The computed `pending_kind`
(lines 160-163) is never stored and has no effect, so it is omitted. -/
def add_pending (now : Nat) (freshId : String) (record : Rec) (s : Store) :
    Except PyErr (Rec × Store) := do
  let expense_id := pyStrFn (pyOr (pyGet record "expense_id") (PyVal.str freshId))
  let payload := pyOr (pyGet record "payload") (PyVal.dict record)
  let vendor_name :=
    pyOr
      (pyOr (pyGet record "vendor_name")
        (match payload with
         | PyVal.dict d => pyGet d "vendor_name"
         | _ => PyVal.str ""))
      (PyVal.str "")
  let amount := _safe_float (pyGet record "amount")
  let et ← asStrAttr (pyOr (pyGet record "expense_type") (PyVal.str "ordinary")) "lower"
  let exp_type := pyStrip (pyLower et)
  let st ← asStrAttr (pyOr (pyGet record "status") (PyVal.str "pending")) "strip"
  let status := pyLower (pyStrip st)
  let normalized : Rec :=
    [("expense_id", PyVal.str expense_id),
     ("status", PyVal.str status),
     ("created_at", PyVal.num now),
     ("date", pyOr (pyGet record "date") (PyVal.str "")),
     ("vendor_id", pyGet record "vendor_id"),
     ("vendor_name", vendor_name),
     ("amount", optNum amount),
     ("reference_number", pyOr (pyGet record "reference_number") (PyVal.str "")),
     ("expense_type", PyVal.str exp_type),
     ("expense_account_id", pyOr (pyGet record "expense_account_id") (PyVal.str "")),
     ("paid_through_account_id", pyOr (pyGet record "paid_through_account_id") (PyVal.str "")),
     ("paid_through_account_name", pyOr (pyGet record "paid_through_account_name") (PyVal.str "")),
     ("description", pyOr (pyGet record "description") (PyVal.str "")),
     ("receipts", pyOr (pyGet record "receipts") (PyVal.list [])),
     ("zoho_posted", PyVal.bool (truthy (pyGetD record "zoho_posted" (PyVal.bool false)))),
     ("zoho_error", pyGet record "zoho_error"),
     ("zoho_response", pyGet record "zoho_response"),
     ("balance", optNum (_safe_float (pyGet record "balance"))),
     ("clearing", pyOr (pyGet record "clearing") (PyVal.list [])),
     ("cleared_at", pyGet record "cleared_at"),
     ("payload", payload)]
  let normalized :=
    if exp_type = "accrued" && isNone (pyGet normalized "balance")
        && amount.isSome then
      dset normalized "balance" (optNum amount)
    else normalized
  return (normalized, storeSet s expense_id normalized)

/-- src/app/services/pending_store.py:213-216, `get`. -/
def PendingStore.get (s : Store) (expense_id : String) : Option Rec :=
  storeGet s expense_id

/-- src/app/services/pending_store.py:231-249, `update_fields`: refuses
with `None` (store untouched) when the record is falsy - absent id or an
empty stored dict (`if not rec`) - but has no status guard of any kind:
the sanitized fields are merged into any non-falsy record whatever its
current status is. -/
def update_fields (expense_id : String) (fields : Rec) (s : Store) :
    Option Rec × Store :=
  match storeGet s expense_id with
  | Option.none => (Option.none, s)
  | some rec =>
      if rec.isEmpty then (Option.none, s)
      else
        let merged := dict_update rec (sanitize_fields fields)
        (some merged, storeSet s expense_id merged)

/-- src/app/services/pending_store.py:251-272, `add_receipt`: refuses with
`None` (store untouched) when the record is absent, falsy, or not pending;
otherwise appends a receipt entry. -/
def add_receipt (now : Nat) (expense_id filename url : String) (s : Store) :
    Option Rec × Store :=
  match storeGet s expense_id with
  | Option.none => (Option.none, s)
  | some rec =>
      if rec.isEmpty || !(isStr (pyGet rec "status") "pending") then
        (Option.none, s)
      else
        let receipts :=
          match pyGetD rec "receipts" (PyVal.list []) with
          | PyVal.list xs => xs
          | _ => []
        let entry := PyVal.dict
          [("filename", PyVal.str filename),
           ("url", PyVal.str url),
           ("created_at", PyVal.num now)]
        let rec1 := dset rec "receipts" (PyVal.list (receipts ++ [entry]))
        (some rec1, storeSet s expense_id rec1)

/-- src/app/services/pending_store.py:218-229 and 274-283, `delete`
(defined twice with identical bodies; the second definition wins). -/
def PendingStore.delete (expense_id : String) (s : Store) : Bool × Store :=
  match storeGet s expense_id with
  | Option.none => (false, s)
  | some _ => (true, s.filter fun kv => !(kv.1 == expense_id))

/-- src/app/services/pending_store.py:348-366, `approve`: refuses with
`False` (store untouched) when the record is falsy - absent id or an empty
stored dict (`if not rec`).  Otherwise the status is set to "approved" and
`approved_at` stamped - with no check whatsoever of the current status; a
supplied zoho response also sets the posting flags. -/
def approve (now : Nat) (expense_id : String) (zoho_response : Option PyVal)
    (s : Store) : Bool × Store :=
  match storeGet s expense_id with
  | Option.none => (false, s)
  | some rec =>
      if rec.isEmpty then (false, s)
      else
      let rec1 := dset rec "status" (PyVal.str "approved")
      let rec2 := dset rec1 "approved_at" (PyVal.num now)
      let rec3 :=
        match zoho_response with
        | Option.none => rec2
        | some zr =>
            dset (dset (dset rec2 "zoho_posted" (PyVal.bool true))
              "zoho_error" PyVal.none) "zoho_response" zr
      (true, storeSet s expense_id rec3)

/-- src/app/services/pending_store.py:368-380, `reject`: refuses with
`False` (store untouched) when the record is falsy - absent id or an empty
stored dict (`if not rec`) - and otherwise sets status "rejected" with no
check of the current status. -/
def reject (now : Nat) (expense_id : String) (s : Store) : Bool × Store :=
  match storeGet s expense_id with
  | Option.none => (false, s)
  | some rec =>
      if rec.isEmpty then (false, s)
      else
      let rec1 := dset rec "status" (PyVal.str "rejected")
      let rec2 := dset rec1 "rejected_at" (PyVal.num now)
      (true, storeSet s expense_id rec2)

/-- src/app/services/pending_store.py:289-316, `list_approved`.  After
computing the default month bounds and collecting the approved items, the
function branches on `sd_d` - a name that is bound nowhere (only `sd` and
`ed` are; `in_range` is likewise undefined), so every call raises
`NameError` on line 310 before returning anything.  The preceding
computations have no observable effect and are kept only as dead lets. -/
def list_approved (start_date end_date : Option String)
    (default_current_month : Bool) (today : PyDate) (s : Store) :
    Except PyErr (List Rec) :=
  let _bounds :=
    if start_date.isNone && end_date.isNone && default_current_month then
      some (_month_bounds today)
    else Option.none
  let _items := (s.map Prod.snd).filter fun r => isStr (pyGet r "status") "approved"
  Except.error (PyErr.nameError "sd_d")

/-- src/app/services/pending_store.py:385-447, `clear_accrued`.  Lines
424-435 leave the call `rec["clearing"].append({...}` unclosed - the dict
literal is followed, still inside the open parenthesis, by the statements
`clearing.append(new_entry)` and `rec["clearing"] = clearing`, which also
use the names `clearing` and `new_entry` that are bound nowhere.  CPython
refuses to compile the module: `SyntaxError: ( was never closed` at line
424 - verified by parsing the file.  The method therefore has no
executable semantics at all; any call is modelled as that compile error,
with the store unchanged. -/
def clear_accrued (expense_id : String) (amount : PyVal)
    (paid_through_account_id : String) (paid_through_account_name : PyVal)
    (clearing_date reference_number : Option String) (s : Store) :
    Except PyErr (Option Rec) × Store :=
  (Except.error (PyErr.compileError "pending_store.py line 424: unclosed call"), s)

/-- src/app/services/pending_store.py:450-466, `add_clearing`: the
compatibility alias the accrued router calls; it just delegates to
`clear_accrued`. -/
def add_clearing (expense_id : String) (amount : PyVal)
    (paid_through_account_id : String) (paid_through_account_name : PyVal)
    (date : Option String) (s : Store) : Except PyErr (Option Rec) × Store :=
  clear_accrued expense_id amount paid_through_account_id
    paid_through_account_name date Option.none s

/-- Modelled from the spec: `app/core/auth.py` (CurrentUser,
get_current_user, require_admin) is imported by the routers but is not
among the given source files.  Spec section 6 fixes the caller identity the
core consumes as `{userId, isAdmin, allowedCashAccounts: set<accountId>}`;
this structure carries exactly that, under the attribute names the routers
read. -/
structure CurrentUser where
  user_id : String
  is_admin : Bool
  allowed_cash_accounts : List String

/-- src/app/routers/expenses.py:23-37, the `ExpenseCreate` request model.
Optional fields are `Option String`; `amount` is the request's float. -/
structure ExpenseCreate where
  expense_type : String
  vendor_id : Option String
  vendor_name : Option String
  date : Option String
  reference_number : Option String
  expense_account_id : String
  amount : ℚ
  paid_through_account_id : String
  description : Option String
  tax_id : Option String

/-- `payload.dict()`: the pydantic model as a dict, fields in declaration
order. -/
def ExpenseCreate.toDict (p : ExpenseCreate) : Rec :=
  [("expense_type", PyVal.str p.expense_type),
   ("vendor_id", optStr p.vendor_id),
   ("vendor_name", optStr p.vendor_name),
   ("date", optStr p.date),
   ("reference_number", optStr p.reference_number),
   ("expense_account_id", PyVal.str p.expense_account_id),
   ("amount", PyVal.num p.amount),
   ("paid_through_account_id", PyVal.str p.paid_through_account_id),
   ("description", optStr p.description),
   ("tax_id", optStr p.tax_id)]

/-- Python falsiness of an optional string field (`None` or `""`). -/
def optFalsy : Option String → Bool
  | Option.none => true
  | some s => s.isEmpty

/-- Python `a or b` for optional-string fields with a string default. -/
def optOrStr (a : Option String) (dflt : String) : String :=
  match a with
  | some s => if s.isEmpty then dflt else s
  | Option.none => dflt

/-- src/app/routers/expenses.py:66-116, `create_expense`.  The chart-of-
accounts collaborator (`app/services/coa_store.py`) is not among the given
source files; modelled from the spec (section 6:
`resolveAccruedPaidThroughAccount() -> {id, name} | absent`), its result is
the `coa` parameter: `Option.none` for absent, otherwise the account dict
whose keys the route probes.  `today` stands for `date.today()` and `now`
and `freshId` are threaded to `add_pending` as before. -/
def create_expense (p : ExpenseCreate) (user : CurrentUser) (coa : Option Rec)
    (today : PyDate) (now : Nat) (freshId : String) (s : Store) :
    Except PyErr (Rec × Store) := do
  let et := pyLower (pyStrip (optOrStr (some p.expense_type) "ordinary"))
  let exp_type := if et = "ordinary" || et = "accrued" then et else "ordinary"
  let idAndName : Except PyErr (String × PyVal) :=
    if exp_type = "accrued" then
      match coa with
      | Option.none =>
          Except.error (PyErr.httpError 400 "Accrued Expenses account not found in COA")
      | some acc =>
          if acc.isEmpty then
            Except.error (PyErr.httpError 400 "Accrued Expenses account not found in COA")
          else do
            let pid ← asStrAttr
              (pyOr (pyOr (pyGet acc "Account ID") (pyGet acc "Account Id"))
                (pyOr (pyGet acc "account_id") (PyVal.str ""))) "strip"
            let pname :=
              pyOr (pyOr (pyGet acc "Account Name") (pyGet acc "account_name"))
                (PyVal.str "Accrued Expenses")
            Except.ok (pyStrip pid, pname)
    else Except.ok (p.paid_through_account_id, PyVal.str "")
  let pt ← idAndName
  let paid_through_id := pt.1
  let paid_through_name := pt.2
  if p.expense_account_id.isEmpty then
    Except.error (PyErr.httpError 400 "Expense account is required")
  else if paid_through_id.isEmpty then
    Except.error (PyErr.httpError 400 "Paid through is required")
  else if p.amount = 0 ∨ p.amount ≤ 0 then
    Except.error (PyErr.httpError 400 "Amount must be > 0")
  else if optFalsy p.vendor_id && optFalsy p.vendor_name then
    Except.error (PyErr.httpError 400 "Select a vendor or enter vendor name")
  else
    let record : Rec :=
      [("status", PyVal.str "pending"),
       ("expense_type", PyVal.str exp_type),
       ("date", PyVal.str (optOrStr p.date today.isoformat)),
       ("vendor_id", optStr p.vendor_id),
       ("vendor_name", PyVal.str (optOrStr p.vendor_name "")),
       ("reference_number", PyVal.str (optOrStr p.reference_number "")),
       ("expense_account_id", PyVal.str p.expense_account_id),
       ("paid_through_account_id", PyVal.str paid_through_id),
       ("paid_through_account_name", paid_through_name),
       ("amount", PyVal.num p.amount),
       ("description", PyVal.str (optOrStr p.description "")),
       ("tax_id", optStr p.tax_id),
       ("created_by", PyVal.str user.user_id),
       ("payload", PyVal.dict p.toDict)]
    add_pending now freshId record s

/-- src/app/routers/expenses.py:123-146, the approved-listing route: it
always calls `pending_store.list_approved(..., default_current_month=True)`
first and only then applies the non-admin visibility filter
(`created_by == user.user_id or paid_through_account_id in allowed`). -/
def list_approved_route (start_date end_date : Option String)
    (user : CurrentUser) (today : PyDate) (s : Store) :
    Except PyErr (List Rec) := do
  let items ← list_approved start_date end_date true today s
  if user.is_admin then return items
  else
    return items.filter fun e =>
      isStr (pyGet e "created_by") user.user_id
        || memStrList (pyGet e "paid_through_account_id")
            user.allowed_cash_accounts

/-- src/app/routers/expenses.py:153-169, `get_expense`: 404 when the record
is absent (or falsy); for a non-admin caller, 403 whenever the record's
`paid_through_account_id` is not among the caller's allowed cash accounts -
the record's `created_by` is never consulted here. -/
def get_expense_route (expense_id : String) (user : CurrentUser) (s : Store) :
    Except PyErr Rec :=
  match storeGet s expense_id with
  | Option.none => Except.error (PyErr.httpError 404 "Expense not found")
  | some exp =>
      if exp.isEmpty then Except.error (PyErr.httpError 404 "Expense not found")
      else if !user.is_admin
          && !(memStrList (pyGet exp "paid_through_account_id")
                user.allowed_cash_accounts) then
        Except.error (PyErr.httpError 403 "Not allowed")
      else Except.ok exp

/-- src/app/routers/expenses.py:172-177, the PATCH route: its first
statement is `pending_store.update(expense_id, patch)`, but `PendingStore`
defines no method named `update` (only `update_fields`), so every request
raises `AttributeError` before any store access; the store is unchanged. -/
def update_expense_route (expense_id : String) (patch : Rec) (s : Store) :
    Except PyErr Rec × Store :=
  (Except.error (PyErr.attributeError "update"), s)

/-- src/app/routers/accrued.py:15-20, the `ClearingPayload` request model:
its declared fields are exactly `paid_through_account_id`, `amount`,
`date`, `reference_number` and `description`. -/
structure ClearingPayload where
  paid_through_account_id : String
  amount : ℚ
  date : Option String
  reference_number : Option String
  description : Option String

/-- Pydantic attribute access on a `ClearingPayload`: a declared field
yields its value, any other attribute name raises `AttributeError`. -/
def ClearingPayload.getattr (p : ClearingPayload) (name : String) :
    Except PyErr PyVal :=
  if name = "paid_through_account_id" then
    Except.ok (PyVal.str p.paid_through_account_id)
  else if name = "amount" then Except.ok (PyVal.num p.amount)
  else if name = "date" then Except.ok (optStr p.date)
  else if name = "reference_number" then Except.ok (optStr p.reference_number)
  else if name = "description" then Except.ok (optStr p.description)
  else Except.error (PyErr.attributeError name)

/-- src/app/routers/accrued.py:94-105, the POST `/{expense_id}/clear`
route.  Building the arguments of the `pending_store.add_clearing` call
evaluates `payload.paid_through_account_name` - an attribute that is not a
declared field of `ClearingPayload` - so the handler raises before the
store call; were that read to succeed, the call would go on to
`add_clearing` and map a falsy result to HTTP 400. -/
def clear_accrued_route (expense_id : String) (payload : ClearingPayload)
    (s : Store) : Except PyErr PyVal × Store :=
  match payload.getattr "paid_through_account_name" with
  | Except.error e => (Except.error e, s)
  | Except.ok ptName =>
      match add_clearing expense_id (PyVal.num payload.amount)
          payload.paid_through_account_id ptName payload.date s with
      | (Except.error e, s1) => (Except.error e, s1)
      | (Except.ok updated, s1) =>
          match updated with
          | Option.none =>
              (Except.error (PyErr.httpError 400
                "Unable to clear accrued expense (check id/type/status/amount)"), s1)
          | some u =>
              if u.isEmpty then
                (Except.error (PyErr.httpError 400
                  "Unable to clear accrued expense (check id/type/status/amount)"), s1)
              else
                (Except.ok (PyVal.dict [("ok", PyVal.bool true),
                  ("expense", PyVal.dict u)]), s1)

/-- The value of field `k` of record `id` in a store, when both exist. -/
def field_of (s : Store) (id k : String) : Option PyVal :=
  (storeGet s id).bind fun r => dget r k

/-- The status field of record `id` in a store. -/
def status_of (s : Store) (id : String) : Option PyVal :=
  field_of s id "status"

/-- Fixture: an approved accrued record of amount 500 with an open balance
of 500 (the Scenario C starting point of the spec). -/
def approvedAccruedRec : Rec :=
  [("expense_id", PyVal.str "e1"),
   ("status", PyVal.str "approved"),
   ("expense_type", PyVal.str "accrued"),
   ("amount", PyVal.num 500),
   ("balance", PyVal.num 500),
   ("clearing", PyVal.list []),
   ("paid_through_account_id", PyVal.str "ACC9"),
   ("created_by", PyVal.str "U1")]

/-- Fixture: a store holding only `approvedAccruedRec` under id "e1". -/
def approvedStore : Store := [("e1", approvedAccruedRec)]

/-- Fixture: a rejected ordinary record. -/
def rejectedRec : Rec :=
  [("expense_id", PyVal.str "e2"),
   ("status", PyVal.str "rejected"),
   ("expense_type", PyVal.str "ordinary"),
   ("amount", PyVal.num 100)]

/-- Fixture: a store holding only `rejectedRec` under id "e2". -/
def rejectedStore : Store := [("e2", rejectedRec)]

/-- Fixture: a still-pending accrued record (Scenario E of the spec). -/
def pendingAccruedRec : Rec :=
  [("expense_id", PyVal.str "p1"),
   ("status", PyVal.str "pending"),
   ("expense_type", PyVal.str "accrued"),
   ("amount", PyVal.num 500),
   ("balance", PyVal.num 500)]

/-- Fixture: a store holding only `pendingAccruedRec` under id "p1". -/
def fxPendingStore : Store := [("p1", pendingAccruedRec)]

/-- Fixture: a valid accrued submission (Scenario B of the spec: amount
500, expense account E2, vendor V1, and a caller-supplied paid-through
value that the route must override). -/
def c4Payload : ExpenseCreate :=
  { expense_type := "accrued"
    vendor_id := some "V1"
    vendor_name := Option.none
    date := some "2026-10-12"
    reference_number := Option.none
    expense_account_id := "E2"
    amount := 500
    paid_through_account_id := "PCALLER"
    description := Option.none
    tax_id := Option.none }

/-- Fixture: the non-admin submitting actor U1. -/
def c4User : CurrentUser :=
  { user_id := "U1", is_admin := false, allowed_cash_accounts := [] }

/-- Fixture: the chart-of-accounts entry the accrued lookup resolves. -/
def c4CoaAcc : Rec :=
  [("Account ID", PyVal.str "ACC9"),
   ("Account Name", PyVal.str "Accrued Expenses")]

/-- Fixture: today's date used for defaulted fields. -/
def c4Today : PyDate := { year := 2026, month := 10, day := 12 }

/-- Fixture: a record owned by caller U1 but paid through an account
outside U1's allow list. -/
def c6Rec : Rec :=
  [("expense_id", PyVal.str "e6"),
   ("status", PyVal.str "approved"),
   ("created_by", PyVal.str "U1"),
   ("paid_through_account_id", PyVal.str "P9")]

/-- Fixture: a store holding only `c6Rec` under id "e6". -/
def c6Store : Store := [("e6", c6Rec)]

/-- Fixture: the non-admin caller U1 whose only allowed cash account is P1. -/
def c6User : CurrentUser :=
  { user_id := "U1", is_admin := false, allowed_cash_accounts := ["P1"] }

/-- Fixture: the outcome of submitting `c4Payload` as U1 into an empty
store (fresh id "77", creation time 1000). -/
def c4Result : Except PyErr (Rec × Store) :=
  create_expense c4Payload c4User (some c4CoaAcc) c4Today 1000 "77" []

/-- Fixture: the record `c4Result` stored, when the submission succeeded. -/
def c4CreatedRec : Option Rec := c4Result.toOption.map Prod.fst

/-- Reading back the key just written into a record. -/
theorem dget_dset_self (r : Rec) (k : String) (v : PyVal) :
    dget (dset r k v) k = some v := by
  induction r with
  | nil => simp [dset, dget]
  | cons hd t ih =>
      obtain ⟨k1, v1⟩ := hd
      by_cases h : k1 = k
      · simp [dset, dget, h]
      · simp [dset, dget, h, ih]

/-- Writing one key of a record leaves the other keys readable as before. -/
theorem dget_dset_of_ne (r : Rec) (k k1 : String) (v : PyVal) (h : k1 ≠ k) :
    dget (dset r k1 v) k = dget r k := by
  induction r with
  | nil => simp [dset, dget, h]
  | cons hd t ih =>
      obtain ⟨k2, v2⟩ := hd
      by_cases h2 : k2 = k1
      · simp [dset, dget, h2, h]
      · simp [dset, dget, h2, ih]

/-- Reading back the record just written into the store. -/
theorem storeGet_storeSet_self (s : Store) (k : String) (r : Rec) :
    storeGet (storeSet s k r) k = some r := by
  induction s with
  | nil => simp [storeSet, storeGet]
  | cons hd t ih =>
      obtain ⟨k1, r1⟩ := hd
      by_cases h : k1 = k
      · simp [storeSet, storeGet, h]
      · simp [storeSet, storeGet, h, ih]

/-- C1: the claim says every admissible sequence of clear calls appends one
clearing event per call and keeps `balance = amount - sum of events`, never
negative.  The code cannot do any of this: `clear_accrued` sits inside a
module CPython refuses to compile (unclosed `append` call at
pending_store.py line 424, plus the unbound names `clearing` and
`new_entry`), so every clear call - in particular each element of any such
sequence - fails with the compile error and leaves the store exactly as it
was: no event is ever appended and no balance ever changes. -/
theorem C1_clear_accrued_never_runs (expense_id : String) (amount : PyVal)
    (ptid : String) (ptname : PyVal) (cdate ref : Option String) (s : Store) :
    clear_accrued expense_id amount ptid ptname cdate ref s =
      (Except.error (PyErr.compileError "pending_store.py line 424: unclosed call"),
       s) := rfl

/-- C2 counterexample: the claim says no operation changes the status of a
record that is already rejected; but calling `approve` on the rejected
fixture record flips its status to "approved". -/
theorem C2_counterexample :
    status_of rejectedStore "e2" = some (PyVal.str "rejected") ∧
    status_of (approve 100 "e2" Option.none rejectedStore).2 "e2"
      = some (PyVal.str "approved") := ⟨rfl, rfl⟩

/-- C2 amended: the status transitions are unguarded against the current
status - `approve` sets the status of any existing non-falsy record to
"approved" and `reject` to "rejected", whatever that status was (so
approved/rejected are not terminal). -/
theorem C2_amended_status_transitions (now : Nat) (id : String)
    (zr : Option PyVal) (s : Store) (rec : Rec)
    (h : storeGet s id = some rec) (hne : rec.isEmpty = false) :
    status_of (approve now id zr s).2 id = some (PyVal.str "approved") ∧
    status_of (reject now id s).2 id = some (PyVal.str "rejected") := by
  constructor
  · cases zr with
    | none =>
        simp only [approve, h, hne, Bool.false_eq_true, if_false, status_of,
          field_of, storeGet_storeSet_self, Option.some_bind]
        rw [dget_dset_of_ne _ _ _ _ (by decide), dget_dset_self]
    | some z =>
        simp only [approve, h, hne, Bool.false_eq_true, if_false, status_of,
          field_of, storeGet_storeSet_self, Option.some_bind]
        rw [dget_dset_of_ne _ _ _ _ (by decide), dget_dset_of_ne _ _ _ _ (by decide),
          dget_dset_of_ne _ _ _ _ (by decide), dget_dset_of_ne _ _ _ _ (by decide),
          dget_dset_self]
  · simp only [reject, h, hne, Bool.false_eq_true, if_false, status_of,
      field_of, storeGet_storeSet_self, Option.some_bind]
    rw [dget_dset_of_ne _ _ _ _ (by decide), dget_dset_self]

/-- C2 witness: the amended theorem applied to the rejected fixture. -/
theorem C2_amended_status_transitions_witness :
    storeGet rejectedStore "e2" = some rejectedRec ∧
    rejectedRec.isEmpty = false ∧
    (status_of (approve 100 "e2" Option.none rejectedStore).2 "e2"
        = some (PyVal.str "approved") ∧
     status_of (reject 100 "e2" rejectedStore).2 "e2"
        = some (PyVal.str "rejected")) :=
  ⟨rfl, rfl,
   C2_amended_status_transitions 100 "e2" Option.none rejectedStore rejectedRec rfl rfl⟩

/-- C3: the claim says clear fails with Conflict on non-approved or
non-accrued records and with ValidationError on non-positive amounts, the
record staying unchanged.  Evaluated on a still-pending accrued record and
on a negative amount against an approved record, both calls indeed fail
with the store unchanged - but with the module compile error of
pending_store.py line 424, not with any Conflict/ValidationError
discrimination (which the unexecutable code can never produce). -/
theorem C3_clear_failure_modes :
    clear_accrued "p1" (PyVal.num 50) "P1" (PyVal.str "") Option.none Option.none
        fxPendingStore
      = (Except.error (PyErr.compileError "pending_store.py line 424: unclosed call"),
         fxPendingStore) ∧
    clear_accrued "e1" (PyVal.num (-5)) "P1" (PyVal.str "") Option.none Option.none
        approvedStore
      = (Except.error (PyErr.compileError "pending_store.py line 424: unclosed call"),
         approvedStore) := ⟨rfl, rfl⟩

/-- C4: a valid accrued submission (Scenario B: amount 500, expense account
E2, vendor V1, caller-supplied paid-through PCALLER) stores a record with
status "pending", balance 500 and the paid-through forced to the resolved
accrued account ACC9 - but with NO `created_by` field at all: `add_pending`
normalizes the incoming record through a fixed key list that omits
`created_by`, although the route passes it and the list/delete routes read
it.  The claim's `created_by = actor` clause fails. -/
theorem C4_created_by_not_stored :
    (c4CreatedRec.map fun r =>
      (dget r "status", dget r "balance", dget r "paid_through_account_id",
       dget r "created_by"))
      = some (some (PyVal.str "pending"), some (PyVal.num 500),
          some (PyVal.str "ACC9"), Option.none) := rfl

/-- C5: the claim says the approved-expense listing returns exactly the
visibility-filtered approved records for a non-admin caller.  The route
first calls the store's `list_approved`, which always raises NameError on
the unbound `sd_d` (pending_store.py line 310), so the route fails on every
request - for every caller, date range and store state - and never returns
any records at all; the filter expression is never reached. -/
theorem C5_approved_listing_always_raises (sd ed : Option String)
    (u : CurrentUser) (today : PyDate) (s : Store) :
    list_approved_route sd ed u today s
      = Except.error (PyErr.nameError "sd_d") := rfl

/-- C6 counterexample: the claim says the fetch succeeds when the record's
created_by equals the caller's id; the fixture record is owned by caller U1
but paid through account P9 outside U1's allow list, and the fetch is
refused with 403 Forbidden anyway. -/
theorem C6_counterexample :
    dget c6Rec "created_by" = some (PyVal.str "U1") ∧
    get_expense_route "e6" c6User c6Store
      = Except.error (PyErr.httpError 403 "Not allowed") := ⟨rfl, rfl⟩

/-- C6 amended: for a non-admin caller the single-record fetch ignores
`created_by` entirely: an existing (non-falsy) record is returned iff its
paid_through_account_id is in the caller's allowedCashAccounts, and
otherwise the fetch fails with Forbidden (403), not NotFound. -/
theorem C6_amended_fetch_predicate (s : Store) (id : String) (u : CurrentUser)
    (rec : Rec) (hadmin : u.is_admin = false) (hget : storeGet s id = some rec)
    (hne : rec.isEmpty = false) :
    get_expense_route id u s =
      (if memStrList (pyGet rec "paid_through_account_id") u.allowed_cash_accounts
       then Except.ok rec
       else Except.error (PyErr.httpError 403 "Not allowed")) := by
  simp only [get_expense_route, hget, hne, hadmin, Bool.not_false, Bool.true_and,
    Bool.false_eq_true, if_false]
  by_cases hmem : memStrList (pyGet rec "paid_through_account_id") u.allowed_cash_accounts
  · simp [hmem]
  · simp [hmem]

/-- C6 witness: the amended theorem applied to the owned-but-not-allowed
fixture, where the fetch comes out as 403. -/
theorem C6_amended_fetch_predicate_witness :
    c6User.is_admin = false ∧ storeGet c6Store "e6" = some c6Rec ∧
    c6Rec.isEmpty = false ∧
    get_expense_route "e6" c6User c6Store =
      (if memStrList (pyGet c6Rec "paid_through_account_id")
          c6User.allowed_cash_accounts
       then Except.ok c6Rec
       else Except.error (PyErr.httpError 403 "Not allowed")) :=
  ⟨rfl, rfl, rfl, C6_amended_fetch_predicate c6Store "e6" c6User c6Rec rfl rfl rfl⟩

/-- C7 counterexample: the claim says update on a non-pending record always
fails with Conflict leaving it unchanged; but `update_fields` on the
approved fixture record succeeds and changes it. -/
theorem C7_counterexample :
    status_of approvedStore "e1" = some (PyVal.str "approved") ∧
    field_of (update_fields "e1" [("description", PyVal.str "patched")]
        approvedStore).2 "e1" "description" = some (PyVal.str "patched") ∧
    (update_fields "e1" [("description", PyVal.str "patched")]
        approvedStore).1.isSome = true := ⟨rfl, rfl, rfl⟩

/-- C7 amended: on an existing non-falsy record that is not pending,
attach-receipt fails by returning none with the store unchanged (a
not-found-style refusal, not Conflict); the store-level update
(`update_fields`) applies the patch regardless of status; and the PATCH
route itself fails on every request with AttributeError, because
`PendingStore` has no `update` method. -/
theorem C7_amended_nonpending_behaviour (s : Store) (id : String)
    (rec fields patch : Rec) (now : Nat) (fn url : String)
    (hget : storeGet s id = some rec) (hne : rec.isEmpty = false)
    (hst : isStr (pyGet rec "status") "pending" = false) :
    add_receipt now id fn url s = (Option.none, s) ∧
    (update_fields id fields s).1
      = some (dict_update rec (sanitize_fields fields)) ∧
    update_expense_route id patch s
      = (Except.error (PyErr.attributeError "update"), s) := by
  refine ⟨?_, ?_, rfl⟩
  · simp [add_receipt, hget, hst]
  · simp [update_fields, hget, hne]

/-- C7 witness: the amended theorem applied to the approved fixture. -/
theorem C7_amended_nonpending_behaviour_witness :
    storeGet approvedStore "e1" = some approvedAccruedRec ∧
    approvedAccruedRec.isEmpty = false ∧
    isStr (pyGet approvedAccruedRec "status") "pending" = false ∧
    (add_receipt 100 "e1" "r.png" "/u/r.png" approvedStore
        = (Option.none, approvedStore) ∧
     (update_fields "e1" [("description", PyVal.str "x")] approvedStore).1
        = some (dict_update approvedAccruedRec
            (sanitize_fields [("description", PyVal.str "x")])) ∧
     update_expense_route "e1" [] approvedStore
        = (Except.error (PyErr.attributeError "update"), approvedStore)) :=
  ⟨rfl, rfl, rfl, C7_amended_nonpending_behaviour approvedStore "e1" approvedAccruedRec
    [("description", PyVal.str "x")] [] 100 "r.png" "/u/r.png" rfl rfl rfl⟩

/-- C8: the claim describes month-defaulted and explicit date-range
filtering of approved records by their date field; but `list_approved`
always raises NameError on the unbound `sd_d` (undefined `sd_d`, `ed_d` and
`in_range`, pending_store.py lines 310-314), here evaluated with no
explicit range over a store with one approved record. -/
theorem C8_list_approved_raises :
    list_approved Option.none Option.none true (PyDate.mk 2026 10 12) approvedStore
      = Except.error (PyErr.nameError "sd_d") := rfl

/-- C9: the claim says loading never fails and malformed storage loads as
empty.  A missing file does load as empty; but whenever the file exists -
unreadable, malformed (`FileState.present Option.none`) or even valid -
the first load raises AttributeError on the undefined
`_ensure_clearing_ids`; only the in-memory data it leaves behind (empty
for malformed input) serves later operations. -/
theorem C9_load_first_call_behaviour :
    _load FileState.missing = (Except.ok (), []) ∧
    _load (FileState.present Option.none)
      = (Except.error (PyErr.attributeError "_ensure_clearing_ids"), []) ∧
    _load (FileState.present (some approvedStore))
      = (Except.error (PyErr.attributeError "_ensure_clearing_ids"), approvedStore) :=
  ⟨rfl, rfl, rfl⟩

/-- C10: the clear route evaluates `payload.paid_through_account_name` while
building the `add_clearing` call, and that attribute is not among the
declared fields of `ClearingPayload`, so every request to the endpoint
raises AttributeError before the store is touched: no clearing through this
endpoint ever succeeds and the store is unchanged by every such request. -/
theorem C10_clear_route_attribute_error (expense_id : String)
    (p : ClearingPayload) (s : Store) :
    clear_accrued_route expense_id p s
      = (Except.error (PyErr.attributeError "paid_through_account_name"), s) := rfl

end AssetService
